import Mathlib

/-!
Verification of the Samsung Galaxy Book extras platform driver
(`samsung-galaxybook.c`, current revision).

The shallow embedding below translates the ACPI transaction layer of the
driver into Lean: the response-envelope validation of
`galaxybook_acpi_method`, the typed SAWB request frames built by each
feature's get/set function, the performance-mode discovery loop of
`galaxybook_profile_init`, the fan speed table resolver
`fan_speed_list_init` / `fan_speed_get`, and the i8042 hotkey scancode
filter.  Firmware behaviour is abstracted as an explicit function argument
(`fw`) mapping a request frame to either a transport/envelope error code or
a decoded response frame; each driver function is modelled as a pure
function returning its result together with the list of request frames it
transmitted to the firmware.
-/

/-! ## Protocol constants (from the C `#define`s) -/

def SAFN : Nat := 0x5843

def SASB_KBD_BACKLIGHT : Nat := 0x78
def SASB_POWER_MANAGEMENT : Nat := 0x7a
def SASB_USB_CHARGE_GET : Nat := 0x67
def SASB_USB_CHARGE_SET : Nat := 0x68
def SASB_NOTIFICATIONS : Nat := 0x86
def SASB_ALLOW_RECORDING : Nat := 0x8a

def GUNM_SET : Nat := 0x82
def GUNM_GET : Nat := 0x81

def SAWB_LEN_SETTINGS : Nat := 0x15
def SAWB_LEN_PERFORMANCE_MODE : Nat := 0x100

def KBD_BACKLIGHT_MAX_BRIGHTNESS : Nat := 3

/-- Linux `INT_MAX`. -/
def INT_MAX : Nat := 2147483647

/-- Linux errno values (the driver returns their negations). -/
def Eio : Int := 5
def Einval : Int := 22
def Enodev : Int := 19

/-! ## ACPI transaction executor (`galaxybook_acpi_method`)

The C function evaluates the ACPI method and receives either a firmware
level failure (`ACPI_FAILURE(status)`) or a response object.  We model the
firmware outcome for a buffer-typed response as `Except Int (List Nat)`:
`.error e` is a transport failure with status `e`, `.ok bytes` is a
response buffer of the given bytes (the `ACPI_TYPE_BUFFER` type check of
the C code is assumed to have passed; a non-buffer response object has no
defined byte content and is outside this model).  On success the C code
`memcpy`s the response into the caller's frame; we model that by returning
the bytes in `.ok`. -/

def galaxybook_acpi_method (len : Nat) (resp : Except Int (List Nat)) :
    Except Int (List Nat) :=
  match resp with
  | .error e => .error e
  | .ok bytes =>
    if bytes.length ≠ len then .error (-Eio)
    else if bytes.length < 6 then .error (-Eio)
    else if bytes.getD 4 0 ≠ 0xaa then .error (-Eio)
    else if bytes.getD 5 0 = 0xff then .error (-Eio)
    else .ok bytes

/-! ## Settings-layout SAWB frames (layout A)

`struct sawb` with the settings union member selected: the common header
(`safn`, `sasb`, `rflg`) followed by `gunm` and the 250-byte `guds`
payload, modelled as a function from byte index to byte value. -/

structure SawbSettings where
  safn : Nat
  sasb : Nat
  rflg : Nat
  gunm : Nat
  guds : Nat → Nat

/-- `struct sawb buf = {0}`. -/
def empty_sawb : SawbSettings :=
  { safn := 0, sasb := 0, rflg := 0, gunm := 0, guds := fun _ => 0 }

/-- Write one `guds` payload byte. -/
def guds_set (g : Nat → Nat) (i v : Nat) : Nat → Nat :=
  fun j => if j = i then v else g j

/-- Firmware behaviour at the decoded-frame level: the combined outcome of
`galaxybook_acpi_method` for a settings-layout call, abstracted as a
function from the request frame to either an error code (transport or
envelope failure) or the decoded response frame. -/
def SettingsFw : Type := SawbSettings → Except Int SawbSettings

/-! ## Feature enable handshake (`galaxybook_enable_acpi_feature`) -/

/-- The request frame built by `galaxybook_enable_acpi_feature`. -/
def enable_acpi_feature_request (sasb : Nat) : SawbSettings :=
  { empty_sawb with
    safn := SAFN
    sasb := sasb
    gunm := 0xbb
    guds := guds_set (fun _ => 0) 0 0xaa }

/-- `galaxybook_enable_acpi_feature`: send the enable handshake for the
given subsystem id; on executor failure propagate the error; otherwise
return `-Enodev` when `buf.gunm != 0xdd && buf.guds[0] != 0xcc` (note:
the C condition is a conjunction), else success.  The second component is
the list of frames transmitted to the firmware. -/
def galaxybook_enable_acpi_feature (fw : SettingsFw) (sasb : Nat) :
    Except Int Unit × List SawbSettings :=
  let buf := enable_acpi_feature_request sasb
  (match fw buf with
   | .error e => .error e
   | .ok resp =>
     if resp.gunm ≠ 0xdd ∧ resp.guds 0 ≠ 0xcc then .error (-Enodev)
     else .ok (),
   [buf])

/-! ## Boolean-flag set operations -/

/-- Request frame of `start_on_lid_open_acpi_set`. -/
def start_on_lid_open_request (value : Bool) : SawbSettings :=
  { empty_sawb with
    safn := SAFN
    sasb := SASB_POWER_MANAGEMENT
    gunm := GUNM_SET
    guds := guds_set (guds_set (guds_set (fun _ => 0) 0 0xa3) 1 0x80) 2 value.toNat }

/-- `start_on_lid_open_acpi_set`: build the request, run it through the
executor, then return `-Einval` when `buf.guds[1] != 0x80 &&
buf.guds[2] != value` (a conjunction in the C code), else success. -/
def start_on_lid_open_acpi_set (fw : SettingsFw) (value : Bool) :
    Except Int Unit × List SawbSettings :=
  let buf := start_on_lid_open_request value
  (match fw buf with
   | .error e => .error e
   | .ok resp =>
     if resp.guds 1 ≠ 0x80 ∧ resp.guds 2 ≠ value.toNat then .error (-Einval)
     else .ok (),
   [buf])

/-- Request frame of `usb_charge_acpi_set`; gunm is 0x81 to turn on and
0x80 to turn off. -/
def usb_charge_request (value : Bool) : SawbSettings :=
  { empty_sawb with
    safn := SAFN
    sasb := SASB_USB_CHARGE_SET
    gunm := if value then 0x81 else 0x80 }

/-- `usb_charge_acpi_set`: on executor success, return `-Einval` when
`buf.gunm != value` (the response `gunm` byte compared against the
requested boolean promoted to 0/1), else success. -/
def usb_charge_acpi_set (fw : SettingsFw) (value : Bool) :
    Except Int Unit × List SawbSettings :=
  let buf := usb_charge_request value
  (match fw buf with
   | .error e => .error e
   | .ok resp =>
     if resp.gunm ≠ value.toNat then .error (-Einval)
     else .ok (),
   [buf])

/-- Request frame of `allow_recording_acpi_set`. -/
def allow_recording_request (value : Bool) : SawbSettings :=
  { empty_sawb with
    safn := SAFN
    sasb := SASB_ALLOW_RECORDING
    gunm := GUNM_SET
    guds := guds_set (fun _ => 0) 0 value.toNat }

/-- `allow_recording_acpi_set`: on executor success, return `-Einval` when
`buf.gunm != value`, else success. -/
def allow_recording_acpi_set (fw : SettingsFw) (value : Bool) :
    Except Int Unit × List SawbSettings :=
  let buf := allow_recording_request value
  (match fw buf with
   | .error e => .error e
   | .ok resp =>
     if resp.gunm ≠ value.toNat then .error (-Einval)
     else .ok (),
   [buf])

/-! ## Battery charge threshold (`charge_control_end_threshold_acpi_set`) -/

/-- Request frame of `charge_control_end_threshold_acpi_set` (built only
when `value ≤ 100`): `guds[2] = (value == 100 ? 0 : value)`. -/
def charge_control_end_threshold_request (value : Nat) : SawbSettings :=
  { empty_sawb with
    safn := SAFN
    sasb := SASB_POWER_MANAGEMENT
    gunm := GUNM_SET
    guds := guds_set (guds_set (guds_set (fun _ => 0) 0 0xe9) 1 0x90) 2
      (if value = 100 then 0 else value) }

/-- `charge_control_end_threshold_acpi_set`: reject `value > 100` with
`-Einval` before building any request; otherwise transmit the request and
on executor success return `-Einval` when `buf.guds[1] != 0x90 &&
buf.guds[2] != (value == 100 ? 0 : value)`, else success. -/
def charge_control_end_threshold_acpi_set (fw : SettingsFw) (value : Nat) :
    Except Int Unit × List SawbSettings :=
  if value > 100 then (.error (-Einval), [])
  else
    let buf := charge_control_end_threshold_request value
    (match fw buf with
     | .error e => .error e
     | .ok resp =>
       if resp.guds 1 ≠ 0x90 ∧ resp.guds 2 ≠ (if value = 100 then 0 else value) then
         .error (-Einval)
       else .ok (),
     [buf])

/-! ## Performance-mode layout SAWB frames (layout B)

`struct sawb` with the performance-mode union member selected: the common
header followed by the 16-byte `caid` GUID, `fncn`, `subn` and the ten
`iob` data bytes.  `iob i` is the `iob_values[i]` view of the C union,
i.e. `iob 0` is `iob0`, `iob 1` is `iob1`, and so on. -/

structure SawbPerf where
  safn : Nat
  sasb : Nat
  rflg : Nat
  caid : Nat → Nat
  fncn : Nat
  subn : Nat
  iob : Nat → Nat

/-- The 16 bytes written by `export_guid` for the performance-mode GUID
8246028d-8bca-4a55-ba0f-6f1e6b921b8f (little-endian first three groups). -/
def performance_mode_guid_bytes : List Nat :=
  [0x8d, 0x02, 0x46, 0x82, 0xca, 0x8b, 0x55, 0x4a,
   0xba, 0x0f, 0x6f, 0x1e, 0x6b, 0x92, 0x1b, 0x8f]

/-- Firmware behaviour for the performance-mode method, at the
decoded-frame level (see `SettingsFw`). -/
def PerfFw : Type := SawbPerf → Except Int SawbPerf

/-- Request frame of `performance_mode_acpi_set`: `fncn = 0x51`,
`subn = 0x03`, `iob0 = performance_mode`. -/
def performance_mode_request (mode : Nat) : SawbPerf :=
  { safn := SAFN
    sasb := 0x91
    rflg := 0
    caid := fun i => performance_mode_guid_bytes.getD i 0
    fncn := 0x51
    subn := 0x03
    iob := fun i => if i = 0 then mode else 0 }

/-- `performance_mode_acpi_set`: transmit the set request; the result is
the executor's verdict (the response payload is not examined). -/
def performance_mode_acpi_set (fw : PerfFw) (mode : Nat) :
    Except Int Unit × List SawbPerf :=
  let buf := performance_mode_request mode
  (match fw buf with
   | .error e => .error e
   | .ok _ => .ok (),
   [buf])

/-! ## Platform profile mapping (`galaxybook_profile_init`) -/

/-- `enum platform_profile_option` (Linux order: low-power, cool, quiet,
balanced, balanced-performance, performance). -/
inductive PlatformProfileOption where
  | low_power
  | cool
  | quiet
  | balanced
  | balanced_performance
  | performance
deriving DecidableEq

/-- The per-slot mode table `profile_performance_modes`; 0xff is the
"unrecognized / not supported" init value. -/
def ProfileTable : Type := PlatformProfileOption → Nat

/-- The `switch (buf.iob_values[i])` of `galaxybook_profile_init`: which
profile slot (if any) a supported mode value is mapped to, given the table
built so far. -/
def profile_mode_slot (table : ProfileTable) (v : Nat) :
    Option PlatformProfileOption :=
  if v = 0x16 then
    some .performance
  else if v = 0x15 then
    if table .performance ≠ 0xff then some .balanced_performance
    else some .performance
  else if v = 0xb then
    some .low_power
  else if v = 0xa then
    if table .low_power ≠ 0xff then some .quiet
    else some .low_power
  else if v = 0x2 then
    some .balanced
  else if v = 0x1 then
    if table .performance = 0xff then some .performance
    else none
  else if v = 0x0 then
    if table .balanced = 0xff then some .balanced
    else none
  else none

/-- One iteration of the mapping loop body: if the mode value maps to a
slot, record the value in that slot. -/
def profile_apply_mode (table : ProfileTable) (v : Nat) : ProfileTable :=
  match profile_mode_slot table v with
  | some slot => fun s => if s = slot then v else table s
  | none => table

/-- The discovery loop `for (int i = buf.iob0; i > 0; i--)` over the
response's `iob_values`, processing `iob i` down to `iob 1`. -/
def profile_init_loop (i : Nat) (iob : Nat → Nat) (table : ProfileTable) :
    ProfileTable :=
  match i with
  | 0 => table
  | j + 1 => profile_init_loop j iob (profile_apply_mode table (iob (j + 1)))

/-- The `profile_performance_modes` table built by
`galaxybook_profile_init` from a supported-modes response frame: every
slot starts at the 0xff sentinel, then the loop maps the `iob0` listed
values in reverse order. -/
def galaxybook_profile_init_table (resp : SawbPerf) : ProfileTable :=
  profile_init_loop (resp.iob 0) resp.iob (fun _ => 0xff)

/-- `galaxybook_platform_profile_set`: look up the slot's mode value in
the table and pass it (without any sentinel check) to
`performance_mode_acpi_set`. -/
def galaxybook_platform_profile_set (fw : PerfFw) (table : ProfileTable)
    (profile : PlatformProfileOption) : Except Int Unit × List SawbPerf :=
  performance_mode_acpi_set fw (table profile)

/-! ## Fan speed table resolver (`fan_speed_list_init`, `fan_speed_get`) -/

/-- An element of the ACPI package returned by the FANT fan-speed-table
method: an integer, or an object of any other ACPI type. -/
inductive AcpiPkgElem where
  | integer (v : Nat)
  | other
deriving DecidableEq

/-- `fan_speed_list_init`, given the FANT package: reject an empty
package; reject any non-integer element; otherwise build the
`fan_speeds` array of `package.count + 2` entries: index 0 is the
hard-coded 0 ("off"), indices 1..N are the package values each increased
by 0x0a, and (as `fan_speeds_count > 1` then holds) one final entry equal
to the previous (last) entry plus 1000. -/
def fan_speed_list_init (pkg : List AcpiPkgElem) : Except Int (List Nat) :=
  if pkg.length = 0 then .error (-Einval)
  else
    match pkg.mapM (fun e => match e with
      | .integer v => some (v + 0x0a)
      | .other => none) with
    | none => .error (-Einval)
    | some vals =>
      let speeds := 0 :: vals
      if speeds.length > 1 then .ok (speeds ++ [speeds.getLastD 0 + 1000])
      else .ok speeds

/-- `fan_speed_get`, given the built `fan_speeds` table, the stored
`fan_speeds_count` and the value read from the shared FANS
embedded-controller register: reject a register value above `INT_MAX` or
(strictly) above `fan_speeds_count`, else report the table entry at that
level.  The C code indexes the raw array; `.ok .none` models a successful
return whose `fan_speeds[speed_level]` read was out of the bounds of the
table. -/
def fan_speed_get (fan_speeds : List Nat) (fan_speeds_count : Nat)
    (regval : Nat) : Except Int (Option Nat) :=
  if regval > INT_MAX then .error (-Einval)
  else if regval > fan_speeds_count then .error (-Einval)
  else .ok (fan_speeds.get? regval)

/-! ## Hotkey scancode filter and deferred work -/

/-- The two deferred work items the i8042 filter can schedule. -/
inductive HotkeyWork where
  | kbdBacklight
  | allowRecording
deriving DecidableEq

/-- `galaxybook_i8042_filter`: the only state is the `extended` flag.  An
0xe0 byte sets it; the immediately following byte clears it and, on the
keyup codes 0xac (kbd backlight) and 0x9f (allow recording), schedules the
corresponding deferred work item.  The keydown codes 0x2c and 0x1f only
produce debug logging.  Returns the next `extended` state and the list of
scheduled work items. -/
def galaxybook_i8042_filter (extended : Bool) (data : Nat) :
    Bool × List HotkeyWork :=
  if data = 0xe0 then (true, [])
  else if extended then
    (false,
      (if data = 0xac then [HotkeyWork.kbdBacklight] else []) ++
      (if data = 0x9f then [HotkeyWork.allowRecording] else []))
  else (false, [])

/-- Run the i8042 filter over a scancode byte sequence, collecting all
scheduled work items. -/
def i8042_filter_run (extended : Bool) (seq : List Nat) :
    Bool × List HotkeyWork :=
  match seq with
  | [] => (extended, [])
  | d :: rest =>
    let step := galaxybook_i8042_filter extended d
    let next := i8042_filter_run step.1 rest
    (next.1, step.2 ++ next.2)

/-- `galaxybook_kbd_backlight_hotkey_work`: the brightness value passed to
`kbd_backlight_acpi_set` — the cached brightness plus one while below
`max_brightness`, else 0. -/
def galaxybook_kbd_backlight_hotkey_work (brightness max_brightness : Nat) :
    Nat :=
  if brightness < max_brightness then brightness + 1 else 0

/-! ## Theorems -/

/-- Claim C1: for every ACPI transaction executed through
`galaxybook_acpi_method`, if the response buffer's byte at offset 4 is not
the success sentinel 0xaa, or its byte at offset 5 is the failure sentinel
0xff, the call returns the classified error `-EIO` (so no decoded response
frame is copied back to the caller), regardless of the remaining payload
bytes. -/
theorem C1_envelope_sentinels_rejected (len : Nat) (bytes : List Nat)
    (h : bytes.getD 4 0 ≠ 0xaa ∨ bytes.getD 5 0 = 0xff) :
    galaxybook_acpi_method len (.ok bytes) = .error (-Eio) := by
  simp only [galaxybook_acpi_method]
  split_ifs <;> simp_all

/-- Witness for C1: a well-sized 21-byte response whose byte 4 is 0 is
rejected with `-EIO`. -/
theorem C1_envelope_sentinels_rejected_witness :
    (List.replicate 21 0).getD 4 0 ≠ 0xaa ∧
    galaxybook_acpi_method 21 (.ok (List.replicate 21 0)) = .error (-Eio) :=
  ⟨by decide,
   C1_envelope_sentinels_rejected 21 (List.replicate 21 0) (Or.inl (by decide))⟩

/-- Claim C2: for every declared request length `len`, a response buffer
whose length differs from `len` is rejected by `galaxybook_acpi_method`
with the classified error `-EIO`, regardless of its payload content. -/
theorem C2_length_mismatch_rejected (len : Nat) (bytes : List Nat)
    (h : bytes.length ≠ len) :
    galaxybook_acpi_method len (.ok bytes) = .error (-Eio) := by
  simp only [galaxybook_acpi_method]
  split_ifs
  simp_all

/-- Witness for C2: a response one byte shorter than the declared
settings-layout length (20 bytes against len 21) is rejected with `-EIO`,
even though its envelope bytes look well-formed. -/
theorem C2_length_mismatch_rejected_witness :
    (([0, 0, 0, 0, 0xaa, 0] ++ List.replicate 14 0 : List Nat).length ≠ 21) ∧
    galaxybook_acpi_method 21
      (.ok ([0, 0, 0, 0, 0xaa, 0] ++ List.replicate 14 0)) = .error (-Eio) :=
  ⟨by decide,
   C2_length_mismatch_rejected 21 ([0, 0, 0, 0, 0xaa, 0] ++ List.replicate 14 0)
     (by decide)⟩

/-- Claim C3: `charge_control_end_threshold_acpi_set` rejects every
percentage above 100 with `-EINVAL` before any firmware transaction (the
transmitted-frames list is empty); for 100 it transmits device value 0 in
`guds[2]`; for 0..99 it transmits the value unchanged. -/
theorem C3_charge_threshold_normalization (fw : SettingsFw) (value : Nat) :
    (100 < value →
      charge_control_end_threshold_acpi_set fw value = (.error (-Einval), [])) ∧
    (value = 100 →
      (charge_control_end_threshold_acpi_set fw value).2 =
        [charge_control_end_threshold_request 100] ∧
      (charge_control_end_threshold_request 100).guds 2 = 0) ∧
    (value < 100 →
      (charge_control_end_threshold_acpi_set fw value).2 =
        [charge_control_end_threshold_request value] ∧
      (charge_control_end_threshold_request value).guds 2 = value) := by
  refine ⟨fun h => ?_, fun h => ?_, fun h => ?_⟩
  · simp [charge_control_end_threshold_acpi_set, h]
  · subst h
    constructor
    · simp only [charge_control_end_threshold_acpi_set]
      rw [if_neg (by omega : ¬(100 : Nat) > 100)]
    · simp [charge_control_end_threshold_request, guds_set]
  · constructor
    · simp only [charge_control_end_threshold_acpi_set]
      rw [if_neg (by omega : ¬value > 100)]
    · have hne : value ≠ 100 := by omega
      simp [charge_control_end_threshold_request, guds_set, hne]

/-- Witness for C3: with an echoing firmware stub, 101 is rejected with no
transmitted frame, 100 transmits 0, and 50 transmits 50. -/
theorem C3_charge_threshold_normalization_witness :
    charge_control_end_threshold_acpi_set (fun _ => .ok empty_sawb) 101 =
      (.error (-Einval), []) ∧
    ((charge_control_end_threshold_acpi_set (fun _ => .ok empty_sawb) 100).2 =
        [charge_control_end_threshold_request 100] ∧
      (charge_control_end_threshold_request 100).guds 2 = 0) ∧
    ((charge_control_end_threshold_acpi_set (fun _ => .ok empty_sawb) 50).2 =
        [charge_control_end_threshold_request 50] ∧
      (charge_control_end_threshold_request 50).guds 2 = 50) :=
  ⟨(C3_charge_threshold_normalization (fun _ => .ok empty_sawb) 101).1 (by decide),
   (C3_charge_threshold_normalization (fun _ => .ok empty_sawb) 100).2.1 rfl,
   (C3_charge_threshold_normalization (fun _ => .ok empty_sawb) 50).2.2 (by decide)⟩

/-- The supported-performance-modes discovery response of claim C4: the
count 4 in `iob0` and the mode values 0x02, 0x0a, 0x0b, 0x15 in
`iob1`..`iob4`. -/
def c4_modes_response : SawbPerf :=
  { safn := 0, sasb := 0, rflg := 0, caid := fun _ => 0, fncn := 0, subn := 0
    iob := fun i =>
      if i = 0 then 4
      else if i = 1 then 0x02
      else if i = 2 then 0x0a
      else if i = 3 then 0x0b
      else if i = 4 then 0x15
      else 0 }

/-- Claim C4: from the supported mode value list {0x02, 0x0a, 0x0b, 0x15}
(processed last value first), `galaxybook_profile_init` maps exactly
balanced to 0x02, quiet to 0x0a, low-power to 0x0b and performance to
0x15, leaving balanced-performance (and cool) at the 0xff sentinel. -/
theorem C4_profile_mapping :
    galaxybook_profile_init_table c4_modes_response .balanced = 0x02 ∧
    galaxybook_profile_init_table c4_modes_response .quiet = 0x0a ∧
    galaxybook_profile_init_table c4_modes_response .low_power = 0x0b ∧
    galaxybook_profile_init_table c4_modes_response .performance = 0x15 ∧
    galaxybook_profile_init_table c4_modes_response .balanced_performance = 0xff ∧
    galaxybook_profile_init_table c4_modes_response .cool = 0xff := by
  decide

/-! Helper lemmas for the fan speed table resolver. -/

lemma fan_mapM_integer (vals : List Nat) :
    List.mapM (fun e => match e with
      | AcpiPkgElem.integer v => some (v + 0x0a)
      | AcpiPkgElem.other => none) (vals.map AcpiPkgElem.integer) =
    some (vals.map (fun v => v + 0x0a)) := by
  induction vals with
  | nil => rfl
  | cons x xs ih =>
    rw [List.map_cons, List.mapM_cons, ih]
    rfl

lemma getLastD_map (f : Nat → Nat) (l : List Nat) (d : Nat) :
    (l.map f).getLastD (f d) = f (l.getLastD d) := by
  induction l generalizing d with
  | nil => rfl
  | cons x xs ih =>
    rw [List.map_cons, List.getLastD_cons, List.getLastD_cons, ih x]

lemma map_cons_getLastD (f : Nat → Nat) (x : Nat) (xs : List Nat) :
    ((x :: xs).map f).getLastD 0 = f ((x :: xs).getLastD 0) := by
  simp only [List.map_cons, List.getLastD_cons]
  exact getLastD_map f xs x

lemma getD_map_add (c : Nat) (vals : List Nat) (i : Nat) (h : i < vals.length) :
    (vals.map (fun v => v + c)).getD i 0 = vals.getD i 0 + c := by
  induction vals generalizing i with
  | nil => simp at h
  | cons x xs ih =>
    cases i with
    | zero => rfl
    | succ j => simpa using ih j (by simpa using h)

lemma getD_append_left (l l' : List Nat) (i : Nat) (h : i < l.length) :
    (l ++ l').getD i 0 = l.getD i 0 := by
  simp [List.getD_eq_getElem?_getD, List.getElem?_append_left h]

lemma getD_append_length (l : List Nat) (a : Nat) :
    (l ++ [a]).getD l.length 0 = a := by
  induction l with
  | nil => rfl
  | cons x xs ih =>
    rw [List.cons_append, List.length_cons, List.getD_cons_succ, ih]

/-- The expected fan speed table for a FANT value list: a leading 0
("off"), each value corrected by 0x0a, and a final entry 1000 above the
last corrected value. -/
def fan_speeds_expected (vals : List Nat) : List Nat :=
  (0 :: vals.map (fun v => v + 0x0a)) ++ [vals.getLastD 0 + 0x0a + 1000]

lemma fan_speed_list_init_eq (x : Nat) (xs : List Nat) :
    fan_speed_list_init ((x :: xs).map AcpiPkgElem.integer) =
      .ok (fan_speeds_expected (x :: xs)) := by
  simp only [fan_speed_list_init, fan_mapM_integer]
  rw [if_neg (by simp)]
  rw [if_pos (by simp)]
  simp only [fan_speeds_expected]
  rw [List.getLastD_cons, map_cons_getLastD]

/-- Claim C5: for every non-empty FANT table of N integer RPM entries,
`fan_speed_list_init` builds a table of length N + 2 whose entry 0 is 0,
whose entries 1..N are the table values each increased by 0x0a, and whose
final entry is the last corrected value plus 1000. -/
theorem C5_fan_speed_table (vals : List Nat) (h : vals ≠ []) :
    fan_speed_list_init (vals.map AcpiPkgElem.integer) =
      .ok (fan_speeds_expected vals) ∧
    (fan_speeds_expected vals).length = vals.length + 2 ∧
    (fan_speeds_expected vals).getD 0 0 = 0 ∧
    (∀ i, i < vals.length →
      (fan_speeds_expected vals).getD (i + 1) 0 = vals.getD i 0 + 0x0a) ∧
    (fan_speeds_expected vals).getD (vals.length + 1) 0 =
      vals.getLastD 0 + 0x0a + 1000 := by
  obtain ⟨x, xs, rfl⟩ : ∃ x xs, vals = x :: xs := by
    cases vals with
    | nil => exact absurd rfl h
    | cons x xs => exact ⟨x, xs, rfl⟩
  refine ⟨fan_speed_list_init_eq x xs, by simp [fan_speeds_expected], rfl, ?_, ?_⟩
  · intro i hi
    simp only [fan_speeds_expected, List.cons_append, List.getD_cons_succ]
    rw [getD_append_left _ _ i (by simpa using hi)]
    exact getD_map_add 0x0a (x :: xs) i hi
  · simp only [fan_speeds_expected, List.cons_append, List.getD_cons_succ]
    have hlen : ((x :: xs).map (fun v => v + 0x0a)).length = (x :: xs).length := by
      simp
    rw [← hlen, getD_append_length]

/-- Witness for C5: the three-entry FANT table [500, 1000, 1500] yields
the five-entry speed table [0, 510, 1010, 1510, 2510]. -/
theorem C5_fan_speed_table_witness :
    fan_speed_list_init ([500, 1000, 1500].map AcpiPkgElem.integer) =
      .ok (fan_speeds_expected [500, 1000, 1500]) ∧
    (fan_speeds_expected [500, 1000, 1500]).length = 5 ∧
    fan_speeds_expected [500, 1000, 1500] = [0, 510, 1010, 1510, 2510] :=
  ⟨(C5_fan_speed_table [500, 1000, 1500] (by decide)).1,
   (C5_fan_speed_table [500, 1000, 1500] (by decide)).2.1,
   by decide⟩

/-- Counterexample to claim C6: with every slot unmapped (table all 0xff)
and a firmware that accepts the call, `galaxybook_platform_profile_set`
does not fail with an "unsupported" error: it returns success and
transmits exactly one firmware request carrying the 0xff sentinel as the
performance-mode value. -/
theorem C6_unmapped_slot_counterexample :
    (galaxybook_platform_profile_set (fun _ => .ok (performance_mode_request 0))
      (fun _ => 0xff) PlatformProfileOption.performance).1 = .ok () ∧
    (galaxybook_platform_profile_set (fun _ => .ok (performance_mode_request 0))
      (fun _ => 0xff) PlatformProfileOption.performance).2 =
      [performance_mode_request 0xff] ∧
    (performance_mode_request 0xff).iob 0 = 0xff :=
  ⟨rfl, rfl, rfl⟩

/-- Claim C6 as amended: for a profile slot whose table entry still holds
the 0xff "not supported" sentinel, `galaxybook_platform_profile_set`
performs no sentinel check of its own: it transmits exactly one firmware
set request whose mode byte (`iob0`) is the sentinel 0xff, and returns
success exactly when that firmware call succeeds.  (Unmapped slots are
kept unreachable only by the platform-profile framework's choices mask,
set during init for mapped slots alone.) -/
theorem C6_unmapped_slot_transmits_sentinel (fw : PerfFw)
    (table : ProfileTable) (profile : PlatformProfileOption)
    (h : table profile = 0xff) :
    (galaxybook_platform_profile_set fw table profile).2 =
      [performance_mode_request 0xff] ∧
    (performance_mode_request 0xff).iob 0 = 0xff ∧
    ((galaxybook_platform_profile_set fw table profile).1 = .ok () ↔
      ∃ r, fw (performance_mode_request 0xff) = .ok r) := by
  refine ⟨?_, rfl, ?_⟩
  · simp [galaxybook_platform_profile_set, performance_mode_acpi_set, h]
  · simp only [galaxybook_platform_profile_set, performance_mode_acpi_set, h]
    cases hfw : fw (performance_mode_request 0xff) with
    | error e => simp [hfw]
    | ok r => simp [hfw]

/-- Witness for the amended C6: an all-0xff table and an accepting
firmware stub, at the low-power slot. -/
theorem C6_unmapped_slot_transmits_sentinel_witness :
    (galaxybook_platform_profile_set (fun _ => .ok (performance_mode_request 0))
      (fun _ => 0xff) PlatformProfileOption.low_power).2 =
      [performance_mode_request 0xff] ∧
    (performance_mode_request 0xff).iob 0 = 0xff ∧
    ((galaxybook_platform_profile_set (fun _ => .ok (performance_mode_request 0))
      (fun _ => 0xff) PlatformProfileOption.low_power).1 = .ok () ↔
      ∃ r, (fun _ => .ok (performance_mode_request 0) : PerfFw)
        (performance_mode_request 0xff) = .ok r) :=
  C6_unmapped_slot_transmits_sentinel (fun _ => .ok (performance_mode_request 0))
    (fun _ => 0xff) PlatformProfileOption.low_power rfl

/-- Counterexample to claim C7: with a firmware whose valid-envelope
response echoes 0 instead of the requested value, `usb_charge_acpi_set
true` returns the error `-EINVAL`, not success. -/
theorem C7_mismatch_counterexample :
    (usb_charge_acpi_set (fun _ => .ok empty_sawb) true).1 = .error (-Einval) ∧
    (usb_charge_acpi_set (fun _ => .ok empty_sawb) true).1 ≠ .ok () := by
  have h1 : (usb_charge_acpi_set (fun _ => .ok empty_sawb) true).1 =
      .error (-Einval) := rfl
  exact ⟨h1, by rw [h1]; exact fun h => Except.noConfusion h⟩

/-- Claim C7 as amended: when the firmware call succeeds with a valid
envelope but the echoed value differs from the requested one, the
usb-charging and allow-recording set operations log the mismatch and
return `-EINVAL` (a failure, not success); the start-on-lid-open set
operation returns `-EINVAL` exactly when, in addition, the echoed
`guds[1]` byte differs from 0x80 (the C check is a conjunction), and
returns success otherwise. -/
theorem C7_mismatch_returns_einval (fw : SettingsFw) (value : Bool)
    (resp : SawbSettings) :
    (fw (usb_charge_request value) = .ok resp → resp.gunm ≠ value.toNat →
      (usb_charge_acpi_set fw value).1 = .error (-Einval)) ∧
    (fw (allow_recording_request value) = .ok resp → resp.gunm ≠ value.toNat →
      (allow_recording_acpi_set fw value).1 = .error (-Einval)) ∧
    (fw (start_on_lid_open_request value) = .ok resp →
      ((start_on_lid_open_acpi_set fw value).1 = .error (-Einval) ↔
        (resp.guds 1 ≠ 0x80 ∧ resp.guds 2 ≠ value.toNat))) := by
  refine ⟨fun hfw hm => ?_, fun hfw hm => ?_, fun hfw => ?_⟩
  · simp [usb_charge_acpi_set, hfw, hm]
  · simp [allow_recording_acpi_set, hfw, hm]
  · simp only [start_on_lid_open_acpi_set, hfw]
    split_ifs with hcond
    · simp [hcond]
    · simp [hcond]

/-- Witness for the amended C7: a firmware stub echoing an all-zero frame
against requests for value `true`. -/
theorem C7_mismatch_returns_einval_witness :
    (usb_charge_acpi_set (fun _ => .ok empty_sawb) true).1 = .error (-Einval) ∧
    (allow_recording_acpi_set (fun _ => .ok empty_sawb) true).1 =
      .error (-Einval) ∧
    ((start_on_lid_open_acpi_set (fun _ => .ok empty_sawb) true).1 =
        .error (-Einval) ↔
      (empty_sawb.guds 1 ≠ 0x80 ∧ empty_sawb.guds 2 ≠ Bool.toNat true)) :=
  ⟨(C7_mismatch_returns_einval (fun _ => .ok empty_sawb) true empty_sawb).1
     rfl (by decide),
   (C7_mismatch_returns_einval (fun _ => .ok empty_sawb) true empty_sawb).2.1
     rfl (by decide),
   (C7_mismatch_returns_einval (fun _ => .ok empty_sawb) true empty_sawb).2.2
     rfl⟩

/-- Counterexample to claim C8: a response that does not echo the full
"enabled" signature — its `gunm` byte is 0xdd but its first payload byte
is 0 rather than 0xcc — is nevertheless accepted by
`galaxybook_enable_acpi_feature`, which returns success. -/
theorem C8_half_signature_counterexample :
    ({ empty_sawb with gunm := 0xdd } : SawbSettings).guds 0 ≠ 0xcc ∧
    (galaxybook_enable_acpi_feature
      (fun _ => .ok { empty_sawb with gunm := 0xdd })
      SASB_KBD_BACKLIGHT).1 = .ok () :=
  ⟨by decide, rfl⟩

/-- Claim C8 as amended: when the executor call of the enable handshake
succeeds, `galaxybook_enable_acpi_feature` returns the error `-ENODEV`
exactly when the response matches neither signature byte (`gunm` not 0xdd
and first payload byte not 0xcc); a response matching either byte alone is
accepted as enabled. -/
theorem C8_enable_signature_check (fw : SettingsFw) (sasb : Nat)
    (resp : SawbSettings)
    (hfw : fw (enable_acpi_feature_request sasb) = .ok resp) :
    ((galaxybook_enable_acpi_feature fw sasb).1 = .error (-Enodev) ↔
      (resp.gunm ≠ 0xdd ∧ resp.guds 0 ≠ 0xcc)) ∧
    (¬(resp.gunm ≠ 0xdd ∧ resp.guds 0 ≠ 0xcc) →
      (galaxybook_enable_acpi_feature fw sasb).1 = .ok ()) := by
  constructor
  · simp only [galaxybook_enable_acpi_feature, hfw]
    split_ifs with hcond
    · simp [hcond]
    · simp [hcond]
  · intro hcond
    simp [galaxybook_enable_acpi_feature, hfw, hcond]

/-- Witness for the amended C8: a firmware stub answering the keyboard
backlight enable handshake with an all-zero frame, matching neither
signature byte, yields `-ENODEV`. -/
theorem C8_enable_signature_check_witness :
    ((galaxybook_enable_acpi_feature (fun _ => .ok empty_sawb)
        SASB_KBD_BACKLIGHT).1 = .error (-Enodev) ↔
      (empty_sawb.gunm ≠ 0xdd ∧ empty_sawb.guds 0 ≠ 0xcc)) ∧
    (¬(empty_sawb.gunm ≠ 0xdd ∧ empty_sawb.guds 0 ≠ 0xcc) →
      (galaxybook_enable_acpi_feature (fun _ => .ok empty_sawb)
        SASB_KBD_BACKLIGHT).1 = .ok ()) :=
  C8_enable_signature_check (fun _ => .ok empty_sawb) SASB_KBD_BACKLIGHT
    empty_sawb rfl

/-- Claim C9: the scancode sequence (0xe0, 0x2c) — extended prefix then
backlight keydown — schedules no deferred work; (0xe0, 0xac) — extended
prefix then backlight keyup — schedules exactly one keyboard-backlight
cycle work item; the cycle work targets brightness b + 1 while the cached
brightness b is below the maximum 3, and wraps to 0 at the maximum. -/
theorem C9_hotkey_dispatch (b : Nat) :
    i8042_filter_run false [0xe0, 0x2c] = (false, []) ∧
    i8042_filter_run false [0xe0, 0xac] = (false, [HotkeyWork.kbdBacklight]) ∧
    (b < KBD_BACKLIGHT_MAX_BRIGHTNESS →
      galaxybook_kbd_backlight_hotkey_work b KBD_BACKLIGHT_MAX_BRIGHTNESS =
        b + 1) ∧
    galaxybook_kbd_backlight_hotkey_work KBD_BACKLIGHT_MAX_BRIGHTNESS
      KBD_BACKLIGHT_MAX_BRIGHTNESS = 0 := by
  refine ⟨rfl, rfl, fun h => ?_, rfl⟩
  simp [galaxybook_kbd_backlight_hotkey_work, h]

/-- Witness for C9: cycling from cached brightness 2 targets 3. -/
theorem C9_hotkey_dispatch_witness :
    i8042_filter_run false [0xe0, 0xac] = (false, [HotkeyWork.kbdBacklight]) ∧
    galaxybook_kbd_backlight_hotkey_work 2 KBD_BACKLIGHT_MAX_BRIGHTNESS = 3 :=
  ⟨(C9_hotkey_dispatch 2).2.1, (C9_hotkey_dispatch 2).2.2.1 (by decide)⟩

/-- Claim C10 (code bug, off-by-one bounds check): `fan_speed_get`'s
range check rejects only register values strictly greater than
`fan_speeds_count`, so the value equal to `fan_speeds_count` is accepted
and `fan_speeds[fan_speeds_count]` is read one entry past the end of the
table: with the 5-entry table built from the 3-entry FANT list
[500, 1000, 1500], register value 5 returns success (`.ok`) while the
table read is out of bounds (`.none`). -/
theorem C10_out_of_bounds_level_accepted :
    fan_speed_list_init ([500, 1000, 1500].map AcpiPkgElem.integer) =
      .ok [0, 510, 1010, 1510, 2510] ∧
    List.length [0, 510, 1010, 1510, 2510] = 5 ∧
    fan_speed_get [0, 510, 1010, 1510, 2510] 5 5 = .ok Option.none ∧
    fan_speed_get [0, 510, 1010, 1510, 2510] 5 4 = .ok (Option.some 2510) ∧
    fan_speed_get [0, 510, 1010, 1510, 2510] 5 6 = .error (-Einval) := by
  refine ⟨rfl, by decide, ?_, ?_, ?_⟩ <;>
    simp [fan_speed_get, INT_MAX, Einval]
